import Mathlib

/-!
Verification of the safe self-modification session subsystem
(`self_modify.py`, class `SelfModifySession`).

The embedding models the filesystem state the subsystem touches:
the live tree (the files directly under `jarvis_root`), the ephemeral
workspace directory (`self.temp_dir`) and the backup directory
(`self.backup_dir`), each as a finite map from file name to file content.
Relative paths that climb out of a directory (`..`, absolute paths) are
outside the model: a file name denotes an entry of the directory it is
interpreted in, and a name containing a separator denotes an entry of a
subdirectory.  Since no operation of the session ever creates a
subdirectory inside the workspace, a plain `open(..., "w")` on such a
name fails, which the model reflects through `needsMissingParent`.

External behaviour is abstracted by oracles:
  * `pyValid : String → Bool` stands for `python -m py_compile` run on an
    existing file (exit code 0 exactly when the content is valid Python);
    `py_compile` on a missing path exits non-zero, see `checkFile`.
  * `ShadowEnv` records the observable outcomes of the shadow-server run:
    whether the warm-up sleep raised, whether the child had already exited
    after the warm-up, the HTTP statuses and exceptions of the health and
    task calls, whether the task response body carried a `result` field,
    and whether `process.wait` in the teardown block timed out.
-/

namespace SelfModify

/-- A directory as a finite map from file name to file content. -/
abbrev FS := String → Option String

def emptyFS : FS := fun _ => Option.none

def updateFS (fs : FS) (f c : String) : FS :=
  fun g => if g = f then some c else fs g

/-- `shutil.copy2(live/f, dst/f)` for every `f` in `files` that exists in
`live`, in list order (the copy loops of `start_session` and the config
copy of `run_shadow_server_test`). -/
def copyInto (live : FS) (files : List String) (dst : FS) : FS :=
  files.foldl (fun d f =>
    match live f with
    | some c => updateFS d f c
    | Option.none => d) dst

/-- The kinds of `TestResult` records (`SyntaxCheck | ShadowTest | CustomTest`). -/
inductive TKind where
  | syntaxCheck
  | shadowTest
  | customTest
deriving DecidableEq

/-- A `TestResult` record of the audit trail `self.test_results`
(timestamp omitted). -/
structure TestResult where
  kind : TKind
  passed : Bool
deriving DecidableEq

/-- The structured return details of the session operations, standing for
the message strings the Python methods return. -/
inductive Detail where
  | notStarted
  | modified (filename : String)
  | modifyFailed
  | syntaxOk
  | syntaxFailures (files : List String)
  | crashedAtStartup
  | healthFailed (status : Nat)
  | shadowPassed
  | shadowBadFormat
  | shadowTaskFailed (status : Nat)
  | shadowException
  | applied
  | applyFailed
  | rolledBack
  | noBackup
deriving DecidableEq

/-- The state of one `SelfModifySession` object together with the live
tree it operates on.  `tempDir = none` models `self.temp_dir is None`
(session not started); `modifications` keeps the `FileModification`
records (file name only, the timestamp carries no information the claims
use). `testResults` is the `self.test_results` list. -/
structure Session where
  live : FS
  tempDir : Option FS
  backupDir : Option FS
  modifications : List String
  testResults : List TestResult
  coreFiles : List String
  configFiles : List String

/-- Which step of `start_session` raises, if any: `tempfile.mkdtemp`, the
`os.makedirs` of the `.backups` base, or the `os.makedirs` of the
session's backup directory.  The copy loops run after all three. -/
inductive StartFailure where
  | noFailure
  | mkdtempFail
  | backupBaseFail
  | backupDirFail
deriving DecidableEq

/-- `start_session`: create the workspace and the backup directory, copy
every existing core file into both and every existing config file into
the backup only.  On an exception the `except` clause reports failure,
but the attribute assignments already executed persist: after
`mkdtemp` succeeded, `self.temp_dir` stays set even when a later
`makedirs` raises. -/
def start_session (s : Session) (fail : StartFailure) : Bool × Session :=
  match fail with
  | StartFailure.mkdtempFail => (false, s)
  | StartFailure.backupBaseFail => (false, { s with tempDir := some emptyFS })
  | StartFailure.backupDirFail => (false, { s with tempDir := some emptyFS })
  | StartFailure.noFailure =>
    let ws := copyInto s.live s.coreFiles emptyFS
    let bk := copyInto s.live s.configFiles (copyInto s.live s.coreFiles emptyFS)
    (true, { s with tempDir := some ws, backupDir := some bk })

/-- `open(os.path.join(self.temp_dir, filename), "w")` fails exactly when
the name lies in a subdirectory of the workspace, because the session
never creates subdirectories there. -/
def needsMissingParent (f : String) : Bool := f.data.contains '/'

/-- The `filename.endswith(".py")` filter of the syntax-check loop,
expressed over the string's character list so that it evaluates. -/
def endsDotPy (f : String) : Bool := f.data.reverse.take 3 == ['y', 'p', '.']

/-- `modify_temp_file`: write the new content to the workspace copy and
append a `FileModification` record; refuse when the session is not
started; report failure (and record nothing) when the write raises. -/
def modify_temp_file (s : Session) (filename content : String) :
    Bool × Detail × Session :=
  match s.tempDir with
  | Option.none => (false, Detail.notStarted, s)
  | some ws =>
    if needsMissingParent filename then (false, Detail.modifyFailed, s)
    else (true, Detail.modified filename,
      { s with tempDir := some (updateFS ws filename content),
               modifications := s.modifications ++ [filename] })

/-- One per-file check of `run_syntax_check`: `py_compile` on the
workspace path of `f`.  A missing file makes the child process exit
non-zero, so the check fails. -/
def checkFile (pyValid : String → Bool) (ws : FS) (f : String) : Bool :=
  match ws f with
  | some c => pyValid c
  | Option.none => false

/-- The loop body of `run_syntax_check`: skip names not ending in `.py`,
otherwise clear `all_passed` and append the file to the failure list when
its check fails. -/
def syntaxStep (pyValid : String → Bool) (ws : FS)
    (acc : Bool × List String) (f : String) : Bool × List String :=
  if endsDotPy f then
    if checkFile pyValid ws f then acc else (false, acc.2 ++ [f])
  else acc

/-- `run_syntax_check`: fold the per-file checks over `self.core_files`.
It returns the aggregate flag and the failure detail; the session state —
in particular `self.test_results` — is not touched. -/
def run_syntax_check (pyValid : String → Bool) (s : Session) :
    Bool × Detail × Session :=
  match s.tempDir with
  | Option.none => (false, Detail.notStarted, s)
  | some ws =>
    let r := s.coreFiles.foldl (syntaxStep pyValid ws) (true, [])
    (r.1, if r.2 = [] then Detail.syntaxOk else Detail.syntaxFailures r.2, s)

/-- The config files `run_shadow_server_test` copies into the workspace
before spawning the shadow server. -/
def shadowConfigFiles : List String :=
  ["PROJECT_ROOT.txt", "SCAN_RULES.json", "STATE.json", "secrets.json"]

/-- The observable outcomes of one shadow-server run, abstracting the
child process and the HTTP calls. -/
structure ShadowEnv where
  warmupRaises : Bool
  crashedDuringWarmup : Bool
  healthRaises : Bool
  healthStatus : Nat
  taskRaises : Bool
  taskStatus : Nat
  taskHasResult : Bool
  waitTimesOut : Bool
deriving DecidableEq

/-- What one call to `run_shadow_server_test` did: its return value plus
the events of the run (whether a child was spawned, which HTTP calls were
issued, and what the `finally` teardown block executed). -/
structure ShadowOutcome where
  passed : Bool
  detail : Detail
  spawned : Bool
  healthCalled : Bool
  taskCalled : Bool
  terminateCalled : Bool
  killCalled : Bool
deriving DecidableEq

/-- `run_shadow_server_test`: refuse when not started; copy the config
files into the workspace; spawn the shadow server; inside `try`, sleep,
check `poll`, probe `/health`, post the task; the `finally` block always
calls `process.terminate()` and, when `process.wait(timeout=5)` raises,
`process.kill()`. -/
def run_shadow_server_test (env : ShadowEnv) (s : Session) :
    ShadowOutcome × Session :=
  match s.tempDir with
  | Option.none =>
    ({ passed := false, detail := Detail.notStarted, spawned := false,
       healthCalled := false, taskCalled := false,
       terminateCalled := false, killCalled := false }, s)
  | some ws =>
    let ws2 := copyInto s.live shadowConfigFiles ws
    let body : Bool × Detail × Bool × Bool :=
      if env.warmupRaises then (false, Detail.shadowException, false, false)
      else if env.crashedDuringWarmup then
        (false, Detail.crashedAtStartup, false, false)
      else if env.healthRaises then (false, Detail.shadowException, true, false)
      else if env.healthStatus == 200 then
        if env.taskRaises then (false, Detail.shadowException, true, true)
        else if env.taskStatus == 200 then
          if env.taskHasResult then (true, Detail.shadowPassed, true, true)
          else (false, Detail.shadowBadFormat, true, true)
        else (false, Detail.shadowTaskFailed env.taskStatus, true, true)
      else (false, Detail.healthFailed env.healthStatus, true, false)
    ({ passed := body.1, detail := body.2.1, spawned := true,
       healthCalled := body.2.2.1, taskCalled := body.2.2.2,
       terminateCalled := true, killCalled := env.waitTimesOut },
     { s with tempDir := some ws2 })

/-- The copy loop of `apply_modifications`: `shutil.copy2` of each
modified file from the workspace onto the live tree, in record order;
when a copy raises, the earlier copies remain (the accepted
non-transactional limitation). -/
def copyMods (mods : List String) (ws : FS) (live : FS) : Bool × FS :=
  mods.foldl (fun acc f =>
    if acc.1 then
      match ws f with
      | some c => (true, updateFS acc.2 f c)
      | Option.none => (false, acc.2)
    else acc) (true, live)

/-- `apply_modifications`: refuse when not started; run the syntax check
and, unless forced, refuse on its failure; run the shadow test and,
unless forced, refuse on its failure; then copy every recorded
modification from the workspace onto the live tree. -/
def apply_modifications (pyValid : String → Bool) (env : ShadowEnv)
    (s : Session) (force : Bool) : Bool × Detail × Session :=
  match s.tempDir with
  | Option.none => (false, Detail.notStarted, s)
  | some _ =>
    let r1 := run_syntax_check pyValid s
    if !r1.1 && !force then (false, r1.2.1, r1.2.2)
    else
      let r2 := run_shadow_server_test env r1.2.2
      if !r2.1.passed && !force then (false, r2.1.detail, r2.2)
      else
        match r2.2.tempDir with
        | some ws2 =>
          let cp := copyMods r2.2.modifications ws2 r2.2.live
          if cp.1 then (true, Detail.applied, { r2.2 with live := cp.2 })
          else (false, Detail.applyFailed, { r2.2 with live := cp.2 })
        | Option.none => (false, Detail.applyFailed, r2.2)

/-- `rollback`: refuse when no backup directory is recorded; otherwise
copy every file of the backup directory onto the live tree.  The
`os.listdir` loop copies each backup entry once, so it equals the
pointwise overwrite of the live map by the backup map. -/
def overwriteFrom (bk live : FS) : FS :=
  fun f =>
    match bk f with
    | some c => some c
    | Option.none => live f

def rollback (s : Session) : Bool × Detail × Session :=
  match s.backupDir with
  | Option.none => (false, Detail.noBackup, s)
  | some bk => (true, Detail.rolledBack,
      { s with live := overwriteFrom bk s.live })

/-- `get_session_status`: `active` is `self.temp_dir is not None`. -/
structure SessionStatus where
  active : Bool
  modifications : List String

def get_session_status (s : Session) : SessionStatus :=
  { active := s.tempDir.isSome, modifications := s.modifications }

/-! ### Concrete fixtures used to evaluate the theorems -/

/-- A small live tree: two core source files and one config file. -/
def liveDemo : FS := fun g =>
  if g = "agent.py" then some "x=1"
  else if g = "llm.py" then some "y=2"
  else if g = "STATE.json" then some "statecontent"
  else Option.none

/-- A fresh session over `liveDemo`, as `__init__` builds it. -/
def sessionDemo : Session :=
  { live := liveDemo, tempDir := Option.none, backupDir := Option.none,
    modifications := [], testResults := [],
    coreFiles := ["agent.py", "llm.py"],
    configFiles := ["STATE.json", "VERSION.json"] }

/-- `sessionDemo` after a successful `start_session`. -/
def startedDemo : Session := (start_session sessionDemo StartFailure.noFailure).2

/-- A shadow run in which everything succeeds and the teardown `wait`
returns within its timeout. -/
def envGood : ShadowEnv :=
  { warmupRaises := false, crashedDuringWarmup := false,
    healthRaises := false, healthStatus := 200,
    taskRaises := false, taskStatus := 200, taskHasResult := true,
    waitTimesOut := false }

/-- A shadow run in which the child process exits during the warm-up
wait. -/
def envCrashed : ShadowEnv :=
  { warmupRaises := false, crashedDuringWarmup := true,
    healthRaises := false, healthStatus := 200,
    taskRaises := false, taskStatus := 200, taskHasResult := true,
    waitTimesOut := true }

/-- A syntax oracle: everything compiles except the one marker content. -/
def pvDemo : String → Bool := fun c => !(c == "defdef((")

/-- `startedDemo` after an edit that makes the workspace copy of
`agent.py` syntactically invalid. -/
def badWorkspaceDemo : Session :=
  (modify_temp_file startedDemo "agent.py" "defdef((").2.2

/-- A fresh session tracking one core file that does not exist in the
live tree, so `start_session` copies nothing for it and the workspace
lacks it. -/
def sessionGhost : Session :=
  { sessionDemo with coreFiles := ["agent.py", "llm.py", "ghost.py"] }

/-- `sessionGhost` after a successful `start_session`. -/
def startedGhost : Session := (start_session sessionGhost StartFailure.noFailure).2

end SelfModify

namespace SelfModify

/-! ### Helper lemmas about the folds -/

lemma syntaxStep_fst (pv : String → Bool) (ws : FS) (acc : Bool × List String)
    (f : String) :
    (syntaxStep pv ws acc f).1
      = (acc.1 && (!endsDotPy f || checkFile pv ws f)) := by
  unfold syntaxStep
  by_cases he : endsDotPy f = true
  · by_cases hc : checkFile pv ws f = true
    · simp [he, hc]
    · simp [he, Bool.eq_false_iff.mpr hc]
  · simp [Bool.eq_false_iff.mpr he]

lemma foldl_syntaxStep_fst (pv : String → Bool) (ws : FS) (l : List String) :
    ∀ acc : Bool × List String,
      (l.foldl (syntaxStep pv ws) acc).1
        = (acc.1 && l.all (fun f => !endsDotPy f || checkFile pv ws f)) := by
  induction l with
  | nil => intro acc; simp
  | cons g t ih =>
    intro acc
    rw [List.foldl_cons, ih, syntaxStep_fst, List.all_cons]
    rw [Bool.and_assoc]

lemma foldl_syntaxStep_snd_mono (pv : String → Bool) (ws : FS)
    (f : String) (l : List String) :
    ∀ acc : Bool × List String, f ∈ acc.2 →
      f ∈ (l.foldl (syntaxStep pv ws) acc).2 := by
  induction l with
  | nil => intro acc h; simpa using h
  | cons g t ih =>
    intro acc h
    rw [List.foldl_cons]
    apply ih
    unfold syntaxStep
    by_cases he : endsDotPy g = true
    · by_cases hc : checkFile pv ws g = true
      · simpa [he, hc] using h
      · simp [he, Bool.eq_false_iff.mpr hc]
        exact Or.inl h
    · simpa [Bool.eq_false_iff.mpr he] using h

lemma foldl_syntaxStep_snd_mem (pv : String → Bool) (ws : FS)
    (f : String) (hpy : endsDotPy f = true)
    (hbad : checkFile pv ws f = false) (l : List String) :
    ∀ acc : Bool × List String, f ∈ l →
      f ∈ (l.foldl (syntaxStep pv ws) acc).2 := by
  induction l with
  | nil => intro acc h; cases h
  | cons g t ih =>
    intro acc h
    rw [List.foldl_cons]
    rcases List.mem_cons.mp h with hfg | hft
    · subst hfg
      apply foldl_syntaxStep_snd_mono
      simp [syntaxStep, hpy, hbad]
    · exact ih _ hft

lemma foldl_syntaxStep_of_all_pass (pv : String → Bool) (ws : FS)
    (l : List String)
    (h : ∀ g ∈ l, endsDotPy g = true → checkFile pv ws g = true) :
    ∀ acc : Bool × List String, l.foldl (syntaxStep pv ws) acc = acc := by
  induction l with
  | nil => intro acc; simp
  | cons g t ih =>
    intro acc
    rw [List.foldl_cons]
    have hstep : syntaxStep pv ws acc g = acc := by
      unfold syntaxStep
      by_cases he : endsDotPy g = true
      · simp [he, h g (List.mem_cons_self g t) he]
      · simp [Bool.eq_false_iff.mpr he]
    rw [hstep]
    exact ih (fun x hx hpy => h x (List.mem_cons_of_mem g hx) hpy) acc

lemma copyInto_not_mem (live : FS) (files : List String) (f : String)
    (hf : f ∉ files) : ∀ dst : FS, copyInto live files dst f = dst f := by
  induction files with
  | nil => intro dst; rfl
  | cons g t ih =>
    intro dst
    have hfg : f ≠ g := fun h => hf (h ▸ List.mem_cons_self g t)
    have hft : f ∉ t := fun h => hf (List.mem_cons_of_mem g h)
    unfold copyInto
    rw [List.foldl_cons]
    cases hg : live g with
    | none => exact ih hft dst
    | some c =>
      have : updateFS dst g c f = dst f := by simp [updateFS, hfg]
      simpa [copyInto, this] using ih hft (updateFS dst g c)

lemma copyInto_agree (live : FS) (files : List String) (f c : String)
    (hl : live f = some c) :
    ∀ dst : FS, dst f = some c → copyInto live files dst f = some c := by
  induction files with
  | nil => intro dst hd; exact hd
  | cons g t ih =>
    intro dst hd
    unfold copyInto
    rw [List.foldl_cons]
    cases hg : live g with
    | none => exact ih dst hd
    | some cg =>
      apply ih
      by_cases hfg : f = g
      · subst hfg
        rw [hl] at hg
        simp [updateFS, hg.symm]
      · simpa [updateFS, hfg] using hd

lemma copyInto_mem (live : FS) (files : List String) (f c : String)
    (hf : f ∈ files) (hl : live f = some c) :
    ∀ dst : FS, copyInto live files dst f = some c := by
  induction files with
  | nil => cases hf
  | cons g t ih =>
    intro dst
    rcases List.mem_cons.mp hf with hfg | hft
    · subst hfg
      unfold copyInto
      rw [List.foldl_cons, hl]
      exact copyInto_agree live t f c hl _ (by simp [updateFS])
    · unfold copyInto
      rw [List.foldl_cons]
      cases hg : live g with
      | none => exact ih hft dst
      | some cg => exact ih hft (updateFS dst g cg)

lemma copyMods_nil (ws live : FS) : copyMods [] ws live = (true, live) := rfl

lemma copyMods_single (ws live : FS) (f c : String) (h : ws f = some c) :
    copyMods [f] ws live = (true, updateFS live f c) := by
  simp [copyMods, h]

end SelfModify

namespace SelfModify

/-! ### Characterisations of the session operations -/

lemma run_syntax_check_pass (pv : String → Bool) (s : Session) (ws : FS)
    (hws : s.tempDir = some ws)
    (hsyn : ∀ g ∈ s.coreFiles, endsDotPy g = true →
      checkFile pv ws g = true) :
    run_syntax_check pv s = (true, Detail.syntaxOk, s) := by
  unfold run_syntax_check
  rw [hws]
  simp [foldl_syntaxStep_of_all_pass pv ws s.coreFiles hsyn]

lemma run_syntax_check_fail (pv : String → Bool) (s : Session) (ws : FS)
    (f : String) (hws : s.tempDir = some ws) (hf : f ∈ s.coreFiles)
    (hpy : endsDotPy f = true) (hbad : checkFile pv ws f = false) :
    (run_syntax_check pv s).1 = false ∧
    (∃ fs, (run_syntax_check pv s).2.1 = Detail.syntaxFailures fs ∧ f ∈ fs) ∧
    (run_syntax_check pv s).2.2 = s := by
  have hmem : f ∈ (s.coreFiles.foldl (syntaxStep pv ws) (true, [])).2 :=
    foldl_syntaxStep_snd_mem pv ws f hpy hbad s.coreFiles _ hf
  have hall : s.coreFiles.all
      (fun g => !endsDotPy g || checkFile pv ws g) = false := by
    apply List.all_eq_false.mpr
    refine ⟨f, hf, ?_⟩
    simp [hpy, hbad]
  have hne : (s.coreFiles.foldl (syntaxStep pv ws) (true, [])).2 ≠ [] := by
    intro h
    rw [h] at hmem
    cases hmem
  unfold run_syntax_check
  rw [hws]
  refine ⟨?_, ⟨_, ?_, hmem⟩, rfl⟩
  · simp [foldl_syntaxStep_fst pv ws s.coreFiles (true, []), hall]
  · simp [hne]

lemma run_shadow_server_test_pass (env : ShadowEnv) (s : Session) (ws : FS)
    (hws : s.tempDir = some ws)
    (h1 : env.warmupRaises = false) (h2 : env.crashedDuringWarmup = false)
    (h3 : env.healthRaises = false) (h4 : env.healthStatus = 200)
    (h5 : env.taskRaises = false) (h6 : env.taskStatus = 200)
    (h7 : env.taskHasResult = true) :
    run_shadow_server_test env s =
      ({ passed := true, detail := Detail.shadowPassed, spawned := true,
         healthCalled := true, taskCalled := true,
         terminateCalled := true, killCalled := env.waitTimesOut },
       { s with tempDir := some (copyInto s.live shadowConfigFiles ws) }) := by
  unfold run_shadow_server_test
  rw [hws]
  simp [h1, h2, h3, h4, h5, h6, h7]

end SelfModify

namespace SelfModify

/-! ### The claims -/

/-- C2: for every call to `run_shadow_server_test` in a started session,
on every exit path — success, any failure return, or an exception raised
during the warm-up wait or the HTTP calls — the spawned child process is
terminated before the call returns: `process.terminate()` always runs in
the `finally` block, and `process.kill()` runs exactly when the graceful
`process.wait(timeout=5)` does not return within the grace timeout. -/
theorem shadow_teardown_guarantee (env : ShadowEnv) (s : Session)
    (hstarted : s.tempDir.isSome = true) :
    (run_shadow_server_test env s).1.spawned = true ∧
    (run_shadow_server_test env s).1.terminateCalled = true ∧
    (run_shadow_server_test env s).1.killCalled = env.waitTimesOut := by
  obtain ⟨ws, hws⟩ := Option.isSome_iff_exists.mp hstarted
  unfold run_shadow_server_test
  rw [hws]
  exact ⟨rfl, rfl, rfl⟩

/-- Witness for C2: a concrete started session and a concrete run in
which the task request raises; teardown still happens. -/
theorem shadow_teardown_guarantee_witness :
    (run_shadow_server_test envCrashed startedDemo).1.spawned = true ∧
    (run_shadow_server_test envCrashed startedDemo).1.terminateCalled = true ∧
    (run_shadow_server_test envCrashed startedDemo).1.killCalled
      = envCrashed.waitTimesOut :=
  shadow_teardown_guarantee envCrashed startedDemo (by rfl)

/-- C4: when the spawned child has already exited by the end of the fixed
warm-up wait, `run_shadow_server_test` returns `passed = false` with the
crashed-at-startup detail, and neither the health probe nor the task
request is issued; the teardown still runs. -/
theorem shadow_crash_no_network (env : ShadowEnv) (s : Session) (ws : FS)
    (hws : s.tempDir = some ws)
    (hwarm : env.warmupRaises = false)
    (hcrash : env.crashedDuringWarmup = true) :
    (run_shadow_server_test env s).1.passed = false ∧
    (run_shadow_server_test env s).1.detail = Detail.crashedAtStartup ∧
    (run_shadow_server_test env s).1.healthCalled = false ∧
    (run_shadow_server_test env s).1.taskCalled = false ∧
    (run_shadow_server_test env s).1.terminateCalled = true := by
  unfold run_shadow_server_test
  rw [hws]
  simp [hwarm, hcrash]

/-- Witness for C4 at a concrete session and crash environment. -/
theorem shadow_crash_no_network_witness :
    (run_shadow_server_test envCrashed startedDemo).1.passed = false ∧
    (run_shadow_server_test envCrashed startedDemo).1.detail
      = Detail.crashedAtStartup ∧
    (run_shadow_server_test envCrashed startedDemo).1.healthCalled = false ∧
    (run_shadow_server_test envCrashed startedDemo).1.taskCalled = false ∧
    (run_shadow_server_test envCrashed startedDemo).1.terminateCalled = true :=
  shadow_crash_no_network envCrashed startedDemo _ rfl rfl rfl

end SelfModify

namespace SelfModify

lemma apply_modifications_syntax_refuse (pv : String → Bool) (env : ShadowEnv)
    (s : Session) (hws : s.tempDir.isSome = true)
    (h1 : (run_syntax_check pv s).1 = false) :
    apply_modifications pv env s false
      = (false, (run_syntax_check pv s).2.1, (run_syntax_check pv s).2.2) := by
  obtain ⟨ws, hws'⟩ := Option.isSome_iff_exists.mp hws
  unfold apply_modifications
  rw [hws']
  simp [h1]

lemma shadowConfig_not_py (g : String) (hg : g ∈ shadowConfigFiles) :
    endsDotPy g = false := by
  fin_cases hg <;> decide

lemma apply_modifications_success_single (pv : String → Bool) (env : ShadowEnv)
    (s : Session) (ws : FS) (f c : String)
    (hws : s.tempDir = some ws)
    (hmods : s.modifications = [f])
    (hsyn : ∀ g ∈ s.coreFiles, endsDotPy g = true →
      checkFile pv ws g = true)
    (h1 : env.warmupRaises = false) (h2 : env.crashedDuringWarmup = false)
    (h3 : env.healthRaises = false) (h4 : env.healthStatus = 200)
    (h5 : env.taskRaises = false) (h6 : env.taskStatus = 200)
    (h7 : env.taskHasResult = true)
    (hwsf : copyInto s.live shadowConfigFiles ws f = some c) :
    apply_modifications pv env s false
      = (true, Detail.applied,
         { s with tempDir := some (copyInto s.live shadowConfigFiles ws),
                  live := updateFS s.live f c }) := by
  have hr1 := run_syntax_check_pass pv s ws hws hsyn
  have hr2 := run_shadow_server_test_pass env s ws hws h1 h2 h3 h4 h5 h6 h7
  unfold apply_modifications
  rw [hws]
  simp only [hr1, Bool.not_true, Bool.false_and, Bool.if_false_left,
    Bool.not_eq_eq_eq_not, Bool.not_false]
  simp only [hr2, hmods]
  simp [copyMods_single _ _ _ _ hwsf]

end SelfModify

namespace SelfModify

/-- C1: in a session where some tracked core file's workspace copy is
syntactically invalid, `apply_modifications(force=false)` returns
`applied = false`, its detail is the per-file syntax-failure list naming
that file, and the whole session state — in particular the live tree —
is exactly as before the call (no workspace file is copied over). -/
theorem syntax_gate_blocks_apply (pv : String → Bool) (env : ShadowEnv)
    (s : Session) {ws : FS} (f : String) {c : String}
    (hws : s.tempDir = some ws) (hf : f ∈ s.coreFiles)
    (hpy : endsDotPy f = true) (hc : ws f = some c) (hbad : pv c = false) :
    (apply_modifications pv env s false).1 = false ∧
    (∃ fs, (apply_modifications pv env s false).2.1
      = Detail.syntaxFailures fs ∧ f ∈ fs) ∧
    (apply_modifications pv env s false).2.2 = s := by
  have hcf : checkFile pv ws f = false := by simp [checkFile, hc, hbad]
  obtain ⟨h1, ⟨fs, hdet, hmem⟩, hstate⟩ :=
    run_syntax_check_fail pv s ws f hws hf hpy hcf
  have happly := apply_modifications_syntax_refuse pv env s
    (by rw [hws]; rfl) h1
  rw [happly]
  exact ⟨rfl, ⟨fs, hdet, hmem⟩, hstate⟩

/-- Witness for C1: the invalid edit of `agent.py` in `badWorkspaceDemo`
makes `apply_modifications` refuse, name the file, and leave the state
alone. -/
theorem syntax_gate_blocks_apply_witness :
    (apply_modifications pvDemo envGood badWorkspaceDemo false).1 = false ∧
    (∃ fs, (apply_modifications pvDemo envGood badWorkspaceDemo false).2.1
      = Detail.syntaxFailures fs ∧ "agent.py" ∈ fs) ∧
    (apply_modifications pvDemo envGood badWorkspaceDemo false).2.2
      = badWorkspaceDemo :=
  syntax_gate_blocks_apply pvDemo envGood badWorkspaceDemo "agent.py"
    rfl (by decide) (by decide) rfl rfl

end SelfModify

namespace SelfModify

/-- C3 counterexample: `startedDemo` has an empty modifications list, yet
`apply_modifications(force=false)` returns `applied = true` once both
gates pass — the claim's required refusal (`applied = false`) does not
happen. -/
theorem apply_empty_mods_counterexample :
    startedDemo.modifications = [] ∧
    (apply_modifications pvDemo envGood startedDemo false).1 = true := by
  constructor
  · rfl
  · decide

/-- C3 amended: with an empty modifications list, a forceless
`apply_modifications` whose two gates pass copies nothing — the live
tree is exactly unchanged — but it is not refused: it reports
`applied = true` instead of rejecting the empty session. -/
theorem apply_empty_mods_noop_but_reports_success (pv : String → Bool)
    (env : ShadowEnv) (s : Session) {ws : FS}
    (hws : s.tempDir = some ws) (hmods : s.modifications = [])
    (hsyn : ∀ g ∈ s.coreFiles, endsDotPy g = true → checkFile pv ws g = true)
    (h1 : env.warmupRaises = false) (h2 : env.crashedDuringWarmup = false)
    (h3 : env.healthRaises = false) (h4 : env.healthStatus = 200)
    (h5 : env.taskRaises = false) (h6 : env.taskStatus = 200)
    (h7 : env.taskHasResult = true) :
    (apply_modifications pv env s false).1 = true ∧
    (apply_modifications pv env s false).2.2.live = s.live := by
  have hr1 := run_syntax_check_pass pv s ws hws hsyn
  have hr2 := run_shadow_server_test_pass env s ws hws h1 h2 h3 h4 h5 h6 h7
  unfold apply_modifications
  rw [hws]
  simp only [hr1, Bool.not_true, Bool.false_and, Bool.if_false_left,
    Bool.not_eq_eq_eq_not, Bool.not_false]
  simp only [hr2, hmods]
  simp [copyMods_nil]

/-- Witness for the amended C3 at the concrete fixture. -/
theorem apply_empty_mods_noop_witness :
    (apply_modifications pvDemo envGood startedDemo false).1 = true ∧
    (apply_modifications pvDemo envGood startedDemo false).2.2.live
      = startedDemo.live :=
  apply_empty_mods_noop_but_reports_success pvDemo envGood startedDemo
    rfl rfl (by decide) rfl rfl rfl rfl rfl rfl rfl

end SelfModify

namespace SelfModify

/-- C5 counterexample: the claim's "creating parent directories as
needed" does not happen — a filename under a not-yet-existing
subdirectory of the workspace makes `modify_temp_file` fail and write
nothing at all, instead of creating the parent and writing. -/
theorem modify_no_parent_creation_counterexample :
    (modify_temp_file startedDemo "sub/x.py" "pass").1 = false ∧
    (modify_temp_file startedDemo "sub/x.py" "pass").2.2 = startedDemo := by
  constructor
  · decide
  · rfl

/-- C5 amended: `modify_temp_file` never touches the live tree or the
backup directory; when the filename needs a parent directory that the
workspace lacks, the call fails and changes nothing (parent directories
are not created); a successful call writes exactly the workspace copy of
the filename and appends its `FileModification` record. -/
theorem modify_writes_only_workspace (s : Session) (filename content : String) :
    (modify_temp_file s filename content).2.2.live = s.live ∧
    (modify_temp_file s filename content).2.2.backupDir = s.backupDir ∧
    (needsMissingParent filename = true →
      (modify_temp_file s filename content).1 = false ∧
      (modify_temp_file s filename content).2.2 = s) ∧
    (∀ ws, s.tempDir = some ws → needsMissingParent filename = false →
      (modify_temp_file s filename content).1 = true ∧
      (modify_temp_file s filename content).2.2.tempDir
        = some (updateFS ws filename content) ∧
      (modify_temp_file s filename content).2.2.modifications
        = s.modifications ++ [filename]) := by
  cases hws : s.tempDir with
  | none => simp [modify_temp_file, hws]
  | some ws =>
    by_cases hp : needsMissingParent filename = true
    · simp [modify_temp_file, hws, hp]
    · have hp' : needsMissingParent filename = false := by
        exact Bool.eq_false_iff.mpr hp
      simp [modify_temp_file, hws, hp']

/-- Witness for the amended C5: a blocked subdirectory write and a
successful top-level write over the concrete fixture. -/
theorem modify_writes_only_workspace_witness :
    (modify_temp_file startedDemo "sub/x.py" "pass").2.2.live
      = startedDemo.live ∧
    (modify_temp_file startedDemo "sub/x.py" "pass").1 = false ∧
    (modify_temp_file startedDemo "agent.py" "x=3").1 = true :=
  ⟨(modify_writes_only_workspace startedDemo "sub/x.py" "pass").1,
   ((modify_writes_only_workspace startedDemo "sub/x.py" "pass").2.2.1
      (by decide)).1,
   ((modify_writes_only_workspace startedDemo "agent.py" "x=3").2.2.2
      _ rfl (by decide)).1⟩

end SelfModify

namespace SelfModify

/-- C6 counterexample: `run_syntax_check` does not append a
`TestResult` to the session's `test_results` trail — after the call the
trail has its old length, not one more record. -/
theorem syntax_check_appends_nothing_counterexample :
    ¬ ((run_syntax_check pvDemo startedDemo).2.2.testResults.length
        = startedDemo.testResults.length + 1) := by
  decide

/-- C6 amended: `run_syntax_check` leaves the session — in particular
the `test_results` trail — exactly unchanged, returning the aggregate
directly: in a started session its flag is the logical AND over the
per-file checks; and `apply_modifications(force=false)` decides by
re-running the checks itself, refusing whenever the fresh syntax check
fails. -/
theorem syntax_check_records_nothing (pv : String → Bool) (env : ShadowEnv)
    (s : Session) :
    (run_syntax_check pv s).2.2 = s ∧
    (∀ ws, s.tempDir = some ws →
      ((run_syntax_check pv s).1 = true ↔
        ∀ g ∈ s.coreFiles, endsDotPy g = true → checkFile pv ws g = true)) ∧
    ((run_syntax_check pv s).1 = false →
      (apply_modifications pv env s false).1 = false) := by
  refine ⟨?_, ?_, ?_⟩
  · cases hws : s.tempDir with
    | none => simp [run_syntax_check, hws]
    | some ws => simp [run_syntax_check, hws]
  · intro ws hws
    constructor
    · intro htrue g hg hgpy
      unfold run_syntax_check at htrue
      rw [hws] at htrue
      simp only [foldl_syntaxStep_fst, Bool.true_and] at htrue
      have := List.all_eq_true.mp htrue g hg
      simpa [hgpy] using this
    · intro hall
      rw [run_syntax_check_pass pv s ws hws hall]
  · intro hfalse
    cases hws : s.tempDir with
    | none => simp [apply_modifications, hws]
    | some ws =>
      rw [apply_modifications_syntax_refuse pv env s (by rw [hws]; rfl) hfalse]

/-- Witness for the amended C6 at the concrete fixture with the invalid
`agent.py` edit. -/
theorem syntax_check_records_nothing_witness :
    (run_syntax_check pvDemo badWorkspaceDemo).2.2 = badWorkspaceDemo ∧
    (apply_modifications pvDemo envGood badWorkspaceDemo false).1 = false :=
  ⟨(syntax_check_records_nothing pvDemo envGood badWorkspaceDemo).1,
   (syntax_check_records_nothing pvDemo envGood badWorkspaceDemo).2.2
     (by decide)⟩

end SelfModify

namespace SelfModify

/-- C8 counterexample: in `startedGhost` the tracked core file
`ghost.py` does not exist in the workspace (it never existed in the live
tree) while every present file compiles, yet `run_syntax_check` is not
`allPassed = true` — the missing file is not skipped: `py_compile` runs
on the missing path, fails, and drags the aggregate down. -/
theorem missing_file_not_skipped_counterexample :
    (run_syntax_check pvDemo startedGhost).1 = false ∧
    (run_syntax_check pvDemo startedGhost).2.1
      = Detail.syntaxFailures ["ghost.py"] := by
  constructor
  · decide
  · decide

/-- C8 amended: a tracked core file absent from the workspace is checked
anyway — the `py_compile` invocation on the missing path fails — so it
makes the aggregate `allPassed` false and appears in the failure
detail. -/
theorem missing_file_fails_syntax_check (pv : String → Bool) (s : Session)
    {ws : FS} (f : String) (hws : s.tempDir = some ws)
    (hf : f ∈ s.coreFiles) (hpy : endsDotPy f = true)
    (hmiss : ws f = Option.none) :
    (run_syntax_check pv s).1 = false ∧
    (∃ fs, (run_syntax_check pv s).2.1 = Detail.syntaxFailures fs ∧
      f ∈ fs) := by
  have hcf : checkFile pv ws f = false := by simp [checkFile, hmiss]
  obtain ⟨h1, hex, _⟩ := run_syntax_check_fail pv s ws f hws hf hpy hcf
  exact ⟨h1, hex⟩

/-- Witness for the amended C8 at the `startedGhost` fixture. -/
theorem missing_file_fails_syntax_check_witness :
    (run_syntax_check pvDemo startedGhost).1 = false ∧
    (∃ fs, (run_syntax_check pvDemo startedGhost).2.1
      = Detail.syntaxFailures fs ∧ "ghost.py" ∈ fs) :=
  missing_file_fails_syntax_check pvDemo startedGhost "ghost.py"
    rfl (by decide) (by decide) rfl

end SelfModify

namespace SelfModify

/-- C9 counterexample: when `os.makedirs` of the backup base fails after
`tempfile.mkdtemp` already succeeded, `start_session` reports failure
but `self.temp_dir` stays assigned: the session reports itself active
and a subsequent `modify_temp_file` proceeds on the partial session. -/
theorem start_failure_partial_counterexample :
    (start_session sessionDemo StartFailure.backupBaseFail).1 = false ∧
    (get_session_status
      (start_session sessionDemo StartFailure.backupBaseFail).2).active
        = true ∧
    (modify_temp_file
      (start_session sessionDemo StartFailure.backupBaseFail).2
      "agent.py" "x=2").1 = true := by
  refine ⟨rfl, rfl, ?_⟩
  decide

/-- C9 amended: only when `tempfile.mkdtemp` itself fails does
`start_session` leave no partial session (not active, and every
subsequent modify refuses); when the backup directory creation fails
after the workspace was created, the failed call leaves `self.temp_dir`
set, so the session reports itself active and subsequent operations
proceed on it. -/
theorem start_failure_partial_state (s : Session) (f c : String)
    (h0 : s.tempDir = Option.none) :
    (start_session s StartFailure.mkdtempFail).1 = false ∧
    (get_session_status
      (start_session s StartFailure.mkdtempFail).2).active = false ∧
    (modify_temp_file
      (start_session s StartFailure.mkdtempFail).2 f c).1 = false ∧
    (start_session s StartFailure.backupBaseFail).1 = false ∧
    (get_session_status
      (start_session s StartFailure.backupBaseFail).2).active = true := by
  refine ⟨rfl, ?_, ?_, rfl, rfl⟩
  · simp [start_session, get_session_status, h0]
  · simp [start_session, modify_temp_file, h0]

/-- Witness for the amended C9 at the fresh concrete session. -/
theorem start_failure_partial_state_witness :
    (start_session sessionDemo StartFailure.mkdtempFail).1 = false ∧
    (get_session_status
      (start_session sessionDemo StartFailure.mkdtempFail).2).active
        = false ∧
    (modify_temp_file
      (start_session sessionDemo StartFailure.mkdtempFail).2
      "agent.py" "x=2").1 = false ∧
    (start_session sessionDemo StartFailure.backupBaseFail).1 = false ∧
    (get_session_status
      (start_session sessionDemo StartFailure.backupBaseFail).2).active
        = true :=
  start_failure_partial_state sessionDemo "agent.py" "x=2" rfl

end SelfModify

namespace SelfModify

/-- C7: starting a session, editing a tracked core file that existed at
start, applying successfully (both gates pass), then rolling back leaves
the live copy of that file byte-identical to its pre-edit content. -/
theorem round_trip_restores_preedit (pv : String → Bool) (env : ShadowEnv)
    (s : Session) (f c cz : String)
    (hmods0 : s.modifications = [])
    (hf : f ∈ s.coreFiles)
    (hpy : endsDotPy f = true)
    (hsl : needsMissingParent f = false)
    (hlf : s.live f = some cz)
    (hexist : ∀ g ∈ s.coreFiles, ∃ cg, s.live g = some cg)
    (hvalid : ∀ g cg, s.live g = some cg → pv cg = true)
    (hvc : pv c = true)
    (h1 : env.warmupRaises = false) (h2 : env.crashedDuringWarmup = false)
    (h3 : env.healthRaises = false) (h4 : env.healthStatus = 200)
    (h5 : env.taskRaises = false) (h6 : env.taskStatus = 200)
    (h7 : env.taskHasResult = true) :
    (modify_temp_file (start_session s StartFailure.noFailure).2 f c).1
      = true ∧
    (apply_modifications pv env
      (modify_temp_file (start_session s StartFailure.noFailure).2 f c).2.2
      false).1 = true ∧
    (rollback (apply_modifications pv env
      (modify_temp_file (start_session s StartFailure.noFailure).2 f c).2.2
      false).2.2).2.2.live f = some cz := by
  have hs1 : (start_session s StartFailure.noFailure).2
      = { s with
          tempDir := some (copyInto s.live s.coreFiles emptyFS),
          backupDir := some (copyInto s.live s.configFiles
            (copyInto s.live s.coreFiles emptyFS)) } := rfl
  have hmod : modify_temp_file (start_session s StartFailure.noFailure).2 f c
      = (true, Detail.modified f,
         { s with
           tempDir := some (updateFS (copyInto s.live s.coreFiles emptyFS) f c),
           backupDir := some (copyInto s.live s.configFiles
             (copyInto s.live s.coreFiles emptyFS)),
           modifications := s.modifications ++ [f] }) := by
    rw [hs1]
    simp [modify_temp_file, hsl]
  have hfncfg : f ∉ shadowConfigFiles := by
    intro hmem
    have := shadowConfig_not_py f hmem
    rw [hpy] at this
    cases this
  have hsyn : ∀ g ∈ s.coreFiles, endsDotPy g = true →
      checkFile pv (updateFS (copyInto s.live s.coreFiles emptyFS) f c) g
        = true := by
    intro g hg _
    by_cases hgf : g = f
    · subst hgf
      simp [checkFile, updateFS, hvc]
    · obtain ⟨cg, hcg⟩ := hexist g hg
      have hwsg : copyInto s.live s.coreFiles emptyFS g = some cg :=
        copyInto_mem s.live s.coreFiles g cg hg hcg emptyFS
      simp [checkFile, updateFS, hgf, hwsg, hvalid g cg hcg]
  have hwsf : copyInto s.live shadowConfigFiles
      (updateFS (copyInto s.live s.coreFiles emptyFS) f c) f = some c := by
    rw [copyInto_not_mem s.live shadowConfigFiles f hfncfg]
    simp [updateFS]
  have happly := apply_modifications_success_single pv env
    { s with
      tempDir := some (updateFS (copyInto s.live s.coreFiles emptyFS) f c),
      backupDir := some (copyInto s.live s.configFiles
        (copyInto s.live s.coreFiles emptyFS)),
      modifications := s.modifications ++ [f] }
    (updateFS (copyInto s.live s.coreFiles emptyFS) f c) f c
    rfl (by simp [hmods0]) hsyn h1 h2 h3 h4 h5 h6 h7 hwsf
  have hbkf : copyInto s.live s.configFiles
      (copyInto s.live s.coreFiles emptyFS) f = some cz := by
    have hwsf0 : copyInto s.live s.coreFiles emptyFS f = some cz :=
      copyInto_mem s.live s.coreFiles f cz hf hlf emptyFS
    exact copyInto_agree s.live s.configFiles f cz hlf _ hwsf0
  refine ⟨by rw [hmod], ?_, ?_⟩
  · rw [hmod]
    rw [happly]
  · rw [hmod]
    rw [happly]
    simp [rollback, overwriteFrom, hbkf]

end SelfModify

namespace SelfModify

/-- Witness for C7: the concrete session edits `agent.py` from `x=1` to
`x=9`, applies through both gates, rolls back, and the live copy is the
original `x=1` again. -/
theorem round_trip_restores_preedit_witness :
    (modify_temp_file
      (start_session sessionDemo StartFailure.noFailure).2
      "agent.py" "x=9").1 = true ∧
    (apply_modifications pvDemo envGood
      (modify_temp_file
        (start_session sessionDemo StartFailure.noFailure).2
        "agent.py" "x=9").2.2 false).1 = true ∧
    (rollback (apply_modifications pvDemo envGood
      (modify_temp_file
        (start_session sessionDemo StartFailure.noFailure).2
        "agent.py" "x=9").2.2 false).2.2).2.2.live "agent.py"
      = some "x=1" := by
  have hexist : ∀ g ∈ sessionDemo.coreFiles, ∃ cg,
      sessionDemo.live g = some cg := by
    intro g hg
    fin_cases hg
    · exact ⟨"x=1", rfl⟩
    · exact ⟨"y=2", rfl⟩
  have hvalid : ∀ g cg, sessionDemo.live g = some cg → pvDemo cg = true := by
    intro g cg hcg
    have hcg' : liveDemo g = some cg := hcg
    unfold liveDemo at hcg'
    split_ifs at hcg'
    case _ => cases Option.some.inj hcg'; decide
    case _ => cases Option.some.inj hcg'; decide
    case _ => cases Option.some.inj hcg'; decide
  exact round_trip_restores_preedit pvDemo envGood sessionDemo
    "agent.py" "x=9" "x=1" rfl (by decide) (by decide) (by decide) rfl
    hexist hvalid rfl rfl rfl rfl rfl rfl rfl rfl

end SelfModify

namespace SelfModify

/-- C10 (implicit): `modify_temp_file` enforces no membership check
against the tracked core-file set — in a started session it succeeds and
appends a `FileModification` record for a filename outside the tracked
set, and a subsequent successful forceless `apply_modifications` copies
that untracked workspace file into the live root as well.  (The four
runtime config names are excluded because the shadow step overwrites
their workspace copies before the apply copy loop.) -/
theorem modify_no_membership_check (pv : String → Bool) (env : ShadowEnv)
    (s : Session) {ws : FS} (f c : String)
    (hws : s.tempDir = some ws)
    (hnotcore : f ∉ s.coreFiles)
    (hncfg : f ∉ shadowConfigFiles)
    (hsl : needsMissingParent f = false)
    (hmods0 : s.modifications = [])
    (hsyn : ∀ g ∈ s.coreFiles, endsDotPy g = true → checkFile pv ws g = true)
    (h1 : env.warmupRaises = false) (h2 : env.crashedDuringWarmup = false)
    (h3 : env.healthRaises = false) (h4 : env.healthStatus = 200)
    (h5 : env.taskRaises = false) (h6 : env.taskStatus = 200)
    (h7 : env.taskHasResult = true) :
    (modify_temp_file s f c).1 = true ∧
    (modify_temp_file s f c).2.2.modifications = s.modifications ++ [f] ∧
    (apply_modifications pv env (modify_temp_file s f c).2.2 false).1
      = true ∧
    (apply_modifications pv env (modify_temp_file s f c).2.2 false).2.2.live f
      = some c := by
  have hmod : modify_temp_file s f c
      = (true, Detail.modified f,
         { s with tempDir := some (updateFS ws f c),
                  modifications := s.modifications ++ [f] }) := by
    unfold modify_temp_file
    rw [hws]
    simp [hsl]
  have hsyn' : ∀ g ∈ s.coreFiles, endsDotPy g = true →
      checkFile pv (updateFS ws f c) g = true := by
    intro g hg hgpy
    have hgf : g ≠ f := fun h => hnotcore (h ▸ hg)
    have := hsyn g hg hgpy
    simpa [checkFile, updateFS, hgf] using this
  have hwsf : copyInto s.live shadowConfigFiles (updateFS ws f c) f
      = some c := by
    rw [copyInto_not_mem s.live shadowConfigFiles f hncfg]
    simp [updateFS]
  have happly := apply_modifications_success_single pv env
    { s with tempDir := some (updateFS ws f c),
             modifications := s.modifications ++ [f] }
    (updateFS ws f c) f c rfl (by simp [hmods0]) hsyn'
    h1 h2 h3 h4 h5 h6 h7 hwsf
  refine ⟨by rw [hmod], by rw [hmod], ?_, ?_⟩
  · rw [hmod]
    rw [happly]
  · rw [hmod]
    rw [happly]
    simp [updateFS]

/-- Witness for C10: the untracked file `newtool.py` is edited and then
copied into the live root by a successful apply. -/
theorem modify_no_membership_check_witness :
    (modify_temp_file startedDemo "newtool.py" "z=1").1 = true ∧
    (modify_temp_file startedDemo "newtool.py" "z=1").2.2.modifications
      = startedDemo.modifications ++ ["newtool.py"] ∧
    (apply_modifications pvDemo envGood
      (modify_temp_file startedDemo "newtool.py" "z=1").2.2 false).1
        = true ∧
    (apply_modifications pvDemo envGood
      (modify_temp_file startedDemo "newtool.py" "z=1").2.2
      false).2.2.live "newtool.py" = some "z=1" :=
  modify_no_membership_check pvDemo envGood startedDemo "newtool.py" "z=1"
    rfl (by decide) (by decide) (by decide) rfl (by decide)
    rfl rfl rfl rfl rfl rfl rfl

end SelfModify
